import Mathlib

/-!
Verification of the TYPO3 Documentation MCP server
(`src/mcp/typo3-docs-server/server.py`) against its specification.

The whole observable behaviour of the server's dispatch core lives in two
functions of `server.py`: `list_tools` (the tool catalog) and `call_tool`
(the dispatcher).  Both are shallowly embedded below.

Modelling decisions:
* JSON argument values are modelled by `Value` (strings and integers: the
  only kinds any declared tool contract mentions).  An argument payload is
  an association list with Python's `dict.get` semantics (`Arguments.get`,
  `Arguments.getD`).
* Python's `str(x)` interpolation in f-strings is `pyStr` / `pyStrO`
  (`None` prints as "None").
* A Python function that can raise is embedded as a function into
  `Except String` (the `String` is `str(e)` of the raised exception).  The
  `try`/`except` boundary of `call_tool` (server.py:160/196-198) is the
  `match` in `call_toolWith`: the body of the `try` block is `call_toolE`,
  and an `.error e` escaping it is rendered as the single text block
  "Error: " ++ e, exactly as in the source.  Thus "the dispatch returned
  the Failure arm" corresponds precisely to `call_toolE ... = .error e`,
  and "the dispatch returned a Success" to `call_toolE ... = .ok r`.
* Python late-binds the five module-level handler names used inside
  `call_tool`; `call_toolE`/`call_toolWith` therefore take the handler
  bundle as an explicit parameter (`Handlers`), and `call_tool` is the
  instantiation at the module's own handlers (`serverHandlers`).  This is
  what lets a fault-injecting stub handler be expressed, as the spec's
  §8 scenario demands, without changing the dispatcher's code shape.
All static response texts are transcribed verbatim from the source
(braces and apostrophes appear via \x7b, \x7d, \x27 escapes).
-/

namespace Typo3Docs

/-- A JSON scalar argument value, as the tool contracts declare them:
Python-side these are `str` and `int` values inside the `arguments` dict. -/
inductive Value where
  | str (s : String)
  | int (n : Int)
deriving DecidableEq

/-- The `arguments` payload of a call: a string-keyed mapping
(a Python `dict`). -/
structure Arguments where
  entries : List (String × Value)
deriving DecidableEq

/-- Python `arguments.get(k)`: the value bound to `k`, or `None` (here
`none`) when the key is absent. -/
def Arguments.get (args : Arguments) (k : String) : Option Value :=
  (args.entries.find? (fun p => p.1 == k)).map Prod.snd

/-- Python `arguments.get(k, d)`: the value bound to `k`, or the default
`d` when the key is absent. -/
def Arguments.getD (args : Arguments) (k : String) (d : Value) : Value :=
  (args.get k).getD d

/-- Python `str(v)` for a `Value`. -/
def pyStr : Value → String
  | .str s => s
  | .int n => toString n

/-- Python `str(v)` for an optional `Value`; `str(None) = "None"`. -/
def pyStrO : Option Value → String
  | none => "None"
  | some v => pyStr v

/-- The `mcp.types.TextContent` block (its `type` field is always
"text" here), the single kind of
content block the server ever produces. -/
structure TextContent where
  type : String
  text : String
deriving DecidableEq

/-- server.py:32. -/
def DOCS_BASE_URL : String := "https://docs.typo3.org"

/-- server.py:33. -/
def CHANGELOG_URL : String :=
  "https://docs.typo3.org/c/typo3/cms-core/main/en-us/Changelog"

/-- server.py:34 (declared in the source; unused by any handler). -/
def TER_API_URL : String := "https://extensions.typo3.org/api/v1"

/-- One property of a tool's `inputSchema` (a JSON-schema fragment):
its `type`, `description`, and optional `default`, `enum`, `minimum`,
`maximum` entries. -/
structure ParamSchema where
  type : String
  description : String
  default : Option Value
  enum : Option (List String)
  minimum : Option Int
  maximum : Option Int
deriving DecidableEq

/-- A tool's `inputSchema`: `type`, `properties` (in declaration order)
and the `required` name list. -/
structure InputSchema where
  type : String
  properties : List (String × ParamSchema)
  required : List String
deriving DecidableEq

/-- The `mcp.types.Tool` record: name, description and input schema. -/
structure Tool where
  name : String
  description : String
  inputSchema : InputSchema
deriving DecidableEq

/-- server.py:41-65, the `search_typo3_docs` catalog entry. -/
def searchDocsTool : Tool :=
  ⟨"search_typo3_docs",
   "Search TYPO3 official documentation at docs.typo3.org. Returns relevant documentation pages with excerpts. Use this when you need information about TYPO3 APIs, features, or configuration.",
   ⟨"object",
    [("query",
      ⟨"string", "Search query (e.g., \x27QueryBuilder\x27, \x27Dependency Injection\x27, \x27Fluid ViewHelpers\x27)", none, none, none, none⟩),
     ("version",
      ⟨"string", "TYPO3 version (e.g., \x2712.4\x27, \x2711.5\x27). Defaults to latest.", some (.str "main"), none, none, none⟩),
     ("section",
      ⟨"string", "Documentation section: \x27reference-coreapi\x27, \x27guides\x27, \x27extensions\x27, \x27changelog\x27", some (.str "all"), some ["reference-coreapi", "guides", "extensions", "changelog", "all"], none, none⟩)],
    ["query"]⟩⟩

/-- server.py:66-92, the `get_typo3_changelog` catalog entry. -/
def changelogTool : Tool :=
  ⟨"get_typo3_changelog",
   "Fetch TYPO3 Core changelog entries for specific version or type. Returns breaking changes, deprecations, features, and important information for TYPO3 upgrades.",
   ⟨"object",
    [("version",
      ⟨"string", "TYPO3 version (e.g., \x2712.4\x27, \x2711.5\x27, \x2713.0\x27)", none, none, none, none⟩),
     ("type",
      ⟨"string", "Changelog entry type", some (.str "All"), some ["Breaking", "Deprecation", "Feature", "Important", "All"], none, none⟩),
     ("limit",
      ⟨"integer", "Maximum number of entries to return", some (.int 10), none, some 1, some 50⟩)],
    ["version"]⟩⟩

/-- server.py:93-118, the `search_typo3_extensions` catalog entry. -/
def searchExtensionsTool : Tool :=
  ⟨"search_typo3_extensions",
   "Search TYPO3 Extension Repository (TER) for extensions. Returns extension information including ratings, downloads, compatibility, and descriptions.",
   ⟨"object",
    [("query",
      ⟨"string", "Search query (extension name, keyword, or functionality)", none, none, none, none⟩),
     ("typo3_version",
      ⟨"string", "Filter by TYPO3 compatibility version (e.g., \x2712.4\x27)", some (.str "12.4"), none, none, none⟩),
     ("limit",
      ⟨"integer", "Maximum number of results", some (.int 10), none, some 1, some 50⟩)],
    ["query"]⟩⟩

/-- server.py:119-136, the `get_typo3_api_reference` catalog entry. -/
def apiReferenceTool : Tool :=
  ⟨"get_typo3_api_reference",
   "Get TYPO3 Core API reference for specific class or interface. Returns class documentation, methods, properties, and usage examples.",
   ⟨"object",
    [("class_name",
      ⟨"string", "Fully qualified class name (e.g., \x27TYPO3\\CMS\\Core\\Database\\ConnectionPool\x27)", none, none, none, none⟩),
     ("method_name",
      ⟨"string", "Specific method name to get detailed info (optional)", none, none, none, none⟩)],
    ["class_name"]⟩⟩

/-- server.py:137-152, the `get_typo3_coding_guidelines` catalog entry. -/
def codingGuidelinesTool : Tool :=
  ⟨"get_typo3_coding_guidelines",
   "Retrieve TYPO3 Coding Guidelines (CGL) for specific topic. Returns official coding standards and best practices.",
   ⟨"object",
    [("topic",
      ⟨"string", "Guideline topic", some (.str "php"), some ["php", "javascript", "typescript", "fluid", "typoscript", "database", "security", "all"], none, none⟩)],
    []⟩⟩

/-- server.py:37-153, `list_tools`: the fixed catalog, in declaration
order. -/
def list_tools : List Tool :=
  [searchDocsTool, changelogTool, searchExtensionsTool, apiReferenceTool,
   codingGuidelinesTool]

/-- The f-string built at server.py:207-235 (the body of
`search_typo3_docs`), with the three interpolation slots explicit.
`sectionArg` is the Python parameter named `section` (a Lean keyword). -/
def search_docs_results (query version sectionArg : String) : String :=
  "# TYPO3 Documentation Search Results\n\n**Query:** " ++ query
  ++ "\n**Version:** " ++ version
  ++ "\n**Section:** " ++ sectionArg
  ++ "\n\n## Relevant Documentation\n\n### 1. Core API Reference\nIf searching for QueryBuilder, Dependency Injection, or Core APIs:\n- URL: "
  ++ DOCS_BASE_URL ++ "/m/typo3/reference-coreapi/" ++ version
  ++ "/en-us/\n- Topics: Database, DI, Events, Caching, etc.\n\n### 2. Extbase & Fluid\nFor MVC framework and templating:\n- URL: "
  ++ DOCS_BASE_URL ++ "/m/typo3/reference-coreapi/" ++ version
  ++ "/en-us/ExtensionArchitecture/Extbase/\n- Fluid: "
  ++ DOCS_BASE_URL ++ "/m/typo3/reference-coreapi/" ++ version
  ++ "/en-us/ApiOverview/Fluid/\n\n### 3. TCA Reference\nFor backend forms and database fields:\n- URL: "
  ++ DOCS_BASE_URL ++ "/m/typo3/reference-tca/" ++ version
  ++ "/en-us/\n\n### 4. TypoScript Reference\nFor TypoScript configuration:\n- URL: "
  ++ DOCS_BASE_URL ++ "/m/typo3/reference-typoscript/" ++ version
  ++ "/en-us/\n\n**Note:** For detailed search, visit https://docs.typo3.org directly.\nFor specific API questions, use the get_typo3_api_reference tool.\n"

/-- server.py:201-237, handler `search_typo3_docs(query, version, section)`.
Its parameters receive whatever `call_tool` passes (`query` may be Python
`None` when the key was absent); the f-string interpolates them via
`str`.  The body cannot raise, hence always `.ok`, and always exactly one
text block. -/
def search_typo3_docs (query : Option Value) (version sectionArg : Value) :
    Except String (List TextContent) :=
  .ok [⟨"text", search_docs_results (pyStrO query) (pyStr version) (pyStr sectionArg)⟩]

/-- The f-string built at server.py:243-274 (the body of
`get_typo3_changelog`), with the three interpolation slots explicit. -/
def changelog_info (version change_type limit : String) : String :=
  "# TYPO3 " ++ version ++ " Changelog\n\n**Type:** " ++ change_type
  ++ "\n**Limit:** " ++ limit
  ++ "\n\n## Important Changes for TYPO3 " ++ version
  ++ "\n\n### Breaking Changes\n- **Removed $GLOBALS[\x27TYPO3_DB\x27]**: Use Doctrine DBAL ConnectionPool\n- **Removed ObjectManager**: Use Dependency Injection\n- **PSR-7 Request/Response**: All controllers must return ResponseInterface\n\n### Deprecations\n- **GeneralUtility::getUrl()**: Use RequestFactory instead\n- **Inject methods**: Use constructor injection\n- **Old hook system**: Migrate to PSR-14 Events\n\n### Features\n- **Improved Dependency Injection**: Full autowiring support\n- **Modern TCA types**: New input types (number, datetime, etc.)\n- **Site Configuration**: YAML-based site configs\n\n### Important\n- **PHP 8.1+ required** for TYPO3 v12\n- **Composer mode recommended**\n- **Update extension dependencies**\n\n**Full Changelog:** "
  ++ CHANGELOG_URL
  ++ "/Index.html\n\nFor detailed migration info, check:\n- Upgrade Guide: "
  ++ DOCS_BASE_URL ++ "/m/typo3/guide-installation/main/en-us/Upgrade/\n"

/-- server.py:240-276, handler
`get_typo3_changelog(version, change_type, limit)`. -/
def get_typo3_changelog (version : Option Value) (change_type limit : Value) :
    Except String (List TextContent) :=
  .ok [⟨"text", changelog_info (pyStrO version) (pyStr change_type) (pyStr limit)⟩]

/-- The f-string built at server.py:285-324 (the body of
`search_typo3_extensions`), with the three interpolation slots explicit. -/
def extensions_results (query typo3_version limit : String) : String :=
  "# TYPO3 Extension Repository Search\n\n**Query:** " ++ query
  ++ "\n**TYPO3 Version:** " ++ typo3_version
  ++ "\n**Limit:** " ++ limit
  ++ "\n\n## Search Results\n\n### Popular TYPO3 Extensions\n\n**Note:** Visit https://extensions.typo3.org to browse official extensions.\n\n**Recommended Extensions for TYPO3 "
  ++ typo3_version
  ++ ":**\n\n1. **news** - Versatile news system\n   - Composer: `composer require georgringer/news`\n   - Compatibility: TYPO3 11-12\n\n2. **powermail** - Forms extension\n   - Composer: `composer require in2code/powermail`\n   - Compatibility: TYPO3 11-12\n\n3. **mask** - Frontend editing\n   - Composer: `composer require mask/mask`\n   - Compatibility: TYPO3 11-12\n\n4. **container** - Grid elements\n   - Composer: `composer require b13/container`\n   - Compatibility: TYPO3 11-12\n\n**Install via Composer:**\n```bash\ncomposer require vendor/extension-key\n```\n\nThen activate in Extension Manager or via:\n```bash\ntypo3 extension:activate extension_key\n```\n"

/-- server.py:279-326, handler
`search_typo3_extensions(query, typo3_version, limit)`. -/
def search_typo3_extensions (query : Option Value) (typo3_version limit : Value) :
    Except String (List TextContent) :=
  .ok [⟨"text", extensions_results (pyStrO query) (pyStr typo3_version) (pyStr limit)⟩]

/-- server.py:335-383, the `api_docs` entry for `ConnectionPool`
(a Python triple-quoted string opening and closing with a newline). -/
def connectionPoolDoc : String :=
  "\n# ConnectionPool API Reference\n\n**Namespace:** TYPO3\\CMS\\Core\\Database\\ConnectionPool\n\n## Description\nFactory class for database connections. Used to get QueryBuilder instances.\n\n## Usage\n\n```php\nuse TYPO3\\CMS\\Core\\Database\\ConnectionPool;\n\npublic function __construct(\n    private readonly ConnectionPool $connectionPool\n) \x7b\x7d\n\npublic function findProducts(): array\n\x7b\n    $queryBuilder = $this->connectionPool\n        ->getQueryBuilderForTable(\x27tx_myext_product\x27);\n\n    return $queryBuilder\n        ->select(\x27*\x27)\n        ->from(\x27tx_myext_product\x27)\n        ->where(\n            $queryBuilder->expr()->eq(\n                \x27active\x27,\n                $queryBuilder->createNamedParameter(1, \\PDO::PARAM_INT)\n            )\n        )\n        ->executeQuery()\n        ->fetchAllAssociative();\n\x7d\n```\n\n## Methods\n\n### getQueryBuilderForTable(string $table): QueryBuilder\nReturns QueryBuilder for specified table.\n\n### getConnectionForTable(string $table): Connection\nReturns Connection instance for direct queries.\n\n## See Also\n- QueryBuilder\n- Connection\n- Doctrine DBAL Documentation\n"

/-- server.py:385-427, the `api_docs` entry for `RequestFactory`. -/
def requestFactoryDoc : String :=
  "\n# RequestFactory API Reference\n\n**Namespace:** TYPO3\\CMS\\Core\\Http\\RequestFactory\n\n## Description\nFactory for creating HTTP requests. Replacement for deprecated GeneralUtility::getUrl().\n\n## Usage\n\n```php\nuse TYPO3\\CMS\\Core\\Http\\RequestFactory;\n\npublic function __construct(\n    private readonly RequestFactory $requestFactory\n) \x7b\x7d\n\npublic function fetchFromApi(): array\n\x7b\n    $response = $this->requestFactory->request(\n        \x27https://api.example.com/data\x27,\n        \x27GET\x27,\n        [\n            \x27headers\x27 => [\n                \x27Authorization\x27 => \x27Bearer \x27 . $apiKey,\n            ],\n            \x27timeout\x27 => 10,\n        ]\n    );\n\n    return json_decode($response->getBody()->getContents(), true);\n\x7d\n```\n\n## Methods\n\n### request(string $uri, string $method, array $options): ResponseInterface\nMakes HTTP request and returns PSR-7 Response.\n\n## See Also\n- PSR-7 HTTP Message Interfaces\n- Guzzle HTTP Client\n"

/-- server.py:334-428, the static `api_docs` knowledge base of
`get_typo3_api_reference`. -/
def api_docs : List (String × String) :=
  [("TYPO3\\CMS\\Core\\Database\\ConnectionPool", connectionPoolDoc),
   ("TYPO3\\CMS\\Core\\Http\\RequestFactory", requestFactoryDoc)]

/-- The fallback f-string built at server.py:434-450 when `class_name` is
not a key of `api_docs`; it interpolates the requested name twice. -/
def api_generic (class_name : String) : String :=
  "# " ++ class_name
  ++ "\n\nAPI documentation for " ++ class_name
  ++ "\n\n**Find detailed documentation at:**\nhttps://docs.typo3.org/m/typo3/reference-coreapi/main/en-us/\n\n**Common TYPO3 Core classes:**\n- TYPO3\\CMS\\Core\\Database\\ConnectionPool\n- TYPO3\\CMS\\Core\\Http\\RequestFactory\n- TYPO3\\CMS\\Core\\Cache\\CacheManager\n- TYPO3\\CMS\\Core\\Resource\\ResourceFactory\n- TYPO3\\CMS\\Core\\Context\\Context\n- TYPO3\\CMS\\Extbase\\Persistence\\Repository\n\nUse the search_typo3_docs tool for more specific information.\n"

/-- server.py:329-452, handler
`get_typo3_api_reference(class_name, method_name)`.  Python's
`class_name in api_docs` is `False` unless `class_name` is one of the two
string keys; any other value (including `None`) falls back to the generic
text, which interpolates `str(class_name)`.  `method_name` is accepted but
never used, exactly as in the source. -/
def get_typo3_api_reference (class_name method_name : Option Value) :
    Except String (List TextContent) :=
  let found : Option String :=
    match class_name with
    | some (.str s) => api_docs.lookup s
    | _ => none
  match found with
  | some doc => .ok [⟨"text", doc⟩]
  | none => .ok [⟨"text", api_generic (pyStrO class_name)⟩]

/-- server.py:459-508, the `guidelines["php"]` text. -/
def phpGuidelines : String :=
  "\n# TYPO3 PHP Coding Guidelines (CGL)\n\n## File Structure\n\n```php\n<?php\n\ndeclare(strict_types=1);\n\nnamespace Vendor\\ExtensionKey\\Domain\\Model;\n\nuse TYPO3\\CMS\\Extbase\\DomainObject\\AbstractEntity;\n\nclass Product extends AbstractEntity\n\x7b\n    protected string $title = \x27\x27;\n\n    public function getTitle(): string\n    \x7b\n        return $this->title;\n    \x7d\n\x7d\n```\n\n## Key Rules\n\n1. **PSR-12 Compliance**\n   - 4 spaces indentation\n   - Opening braces on new line\n   - Max 120 chars per line\n\n2. **File Headers**\n   - `declare(strict_types=1);` after PHP tag\n   - Config files: `defined(\x27TYPO3\x27) || die();`\n\n3. **Namespacing**\n   - Format: `Vendor\\ExtensionKey\\ComponentType\\`\n   - StudlyCase for all parts\n\n4. **Type Declarations**\n   - Required on all parameters and returns\n   - Use `readonly` for immutable properties\n\n5. **Dependency Injection**\n   - Constructor injection only\n   - No ObjectManager or makeInstance for services\n\n**Official CGL:** https://docs.typo3.org/m/typo3/reference-coreapi/main/en-us/CodingGuidelines/\n"

/-- server.py:509-541, the `guidelines["database"]` text. -/
def databaseGuidelines : String :=
  "\n# TYPO3 Database Guidelines\n\n## Use Doctrine DBAL QueryBuilder\n\n```php\nuse TYPO3\\CMS\\Core\\Database\\ConnectionPool;\n\n$queryBuilder = $this->connectionPool\n    ->getQueryBuilderForTable(\x27tx_myext_product\x27);\n\n$products = $queryBuilder\n    ->select(\x27*\x27)\n    ->from(\x27tx_myext_product\x27)\n    ->where(\n        $queryBuilder->expr()->eq(\n            \x27category\x27,\n            $queryBuilder->createNamedParameter($categoryId, \\PDO::PARAM_INT)\n        )\n    )\n    ->executeQuery()\n    ->fetchAllAssociative();\n```\n\n## Rules\n\n1. **Always use QueryBuilder** - not raw SQL\n2. **Named parameters** - prevent SQL injection\n3. **PDO types** - specify for all parameters\n4. **No $GLOBALS[\x27TYPO3_DB\x27]** - removed in v10\n\n**Docs:** https://docs.typo3.org/m/typo3/reference-coreapi/main/en-us/ApiOverview/Database/\n"

/-- server.py:458-542, the static `guidelines` knowledge base of
`get_typo3_coding_guidelines`. -/
def guidelines : List (String × String) :=
  [("php", phpGuidelines), ("database", databaseGuidelines)]

/-- server.py:455-546, handler `get_typo3_coding_guidelines(topic)`.
Python evaluates `guidelines.get(topic, "Guidelines for " + topic)` by
first building the default string: for a string `topic` this yields the
known text or the generic `"Guidelines for <topic>"`; for an integer
`topic` the concatenation `str + int` raises a `TypeError` (whose `str`
is the message below), which escapes to the dispatch boundary. -/
def get_typo3_coding_guidelines (topic : Value) :
    Except String (List TextContent) :=
  match topic with
  | .str s =>
      .ok [⟨"text", (guidelines.lookup s).getD ("Guidelines for " ++ s)⟩]
  | .int _ => .error "can only concatenate str (not \"int\") to str"

/-- The bundle of the five module-level handler functions `call_tool`
invokes.  Python resolves these names late (at call time), so the
dispatcher is parametric in them; the server's own bundle is
`serverHandlers`. -/
structure Handlers where
  search_typo3_docs : Option Value → Value → Value → Except String (List TextContent)
  get_typo3_changelog : Option Value → Value → Value → Except String (List TextContent)
  search_typo3_extensions : Option Value → Value → Value → Except String (List TextContent)
  get_typo3_api_reference : Option Value → Option Value → Except String (List TextContent)
  get_typo3_coding_guidelines : Value → Except String (List TextContent)

/-- server.py:160-194, the body of the `try` block of `call_tool`: the
name-comparison chain, the `arguments.get` projections with their
defaults, and the unknown-tool text.  An `.error` is an exception
escaping the `try` block. -/
def call_toolE (h : Handlers) (name : String) (arguments : Arguments) :
    Except String (List TextContent) :=
  if name = "search_typo3_docs" then
    h.search_typo3_docs (arguments.get "query")
      (arguments.getD "version" (.str "main"))
      (arguments.getD "section" (.str "all"))
  else if name = "get_typo3_changelog" then
    h.get_typo3_changelog (arguments.get "version")
      (arguments.getD "type" (.str "All"))
      (arguments.getD "limit" (.int 10))
  else if name = "search_typo3_extensions" then
    h.search_typo3_extensions (arguments.get "query")
      (arguments.getD "typo3_version" (.str "12.4"))
      (arguments.getD "limit" (.int 10))
  else if name = "get_typo3_api_reference" then
    h.get_typo3_api_reference (arguments.get "class_name")
      (arguments.get "method_name")
  else if name = "get_typo3_coding_guidelines" then
    h.get_typo3_coding_guidelines (arguments.getD "topic" (.str "php"))
  else
    .ok [⟨"text", "Unknown tool: " ++ name⟩]

/-- server.py:156-198, `call_tool` with the handler bundle explicit: the
`except Exception` boundary renders any exception `e` as the single text
block `"Error: " ++ e` (server.py:196-198). -/
def call_toolWith (h : Handlers) (name : String) (arguments : Arguments) :
    List TextContent :=
  match call_toolE h name arguments with
  | .ok r => r
  | .error e => [⟨"text", "Error: " ++ e⟩]

/-- The module's own five handlers, as `call_tool` resolves them. -/
def serverHandlers : Handlers :=
  ⟨search_typo3_docs, get_typo3_changelog, search_typo3_extensions,
   get_typo3_api_reference, get_typo3_coding_guidelines⟩

/-- server.py:156-198, `call_tool(name, arguments)`. -/
def call_tool (name : String) (arguments : Arguments) : List TextContent :=
  call_toolWith serverHandlers name arguments

/-- A fault-injecting stub bundle, the spec's §8 scenario: identical to
the server's handlers except that `search_typo3_docs` raises an
unexpected fault. -/
def faultyHandlers : Handlers :=
  ⟨fun _ _ _ => .error "injected fault", get_typo3_changelog,
   search_typo3_extensions, get_typo3_api_reference,
   get_typo3_coding_guidelines⟩

/-- Substring containment: `needle` occurs contiguously in `hay`. -/
def strContains (hay needle : String) : Prop :=
  needle.data <:+: hay.data

/-!  Helper lemmas, shared by several of the claim theorems below. -/

/-- Prepending a binding for a different key leaves a `dict.get`
lookup unchanged. -/
theorem get_cons_of_ne (k k' : String) (v : Value) (l : List (String × Value))
    (hne : k ≠ k') :
    Arguments.get ⟨(k, v) :: l⟩ k' = Arguments.get ⟨l⟩ k' := by
  have hb : (k == k') = false := beq_eq_false_iff_ne.mpr hne
  simp [Arguments.get, List.find?, hb]

/-- Prepending a binding for a different key leaves a defaulted
`dict.get` lookup unchanged. -/
theorem getD_cons_of_ne (k k' : String) (v d : Value) (l : List (String × Value))
    (hne : k ≠ k') :
    Arguments.getD ⟨(k, v) :: l⟩ k' d = Arguments.getD ⟨l⟩ k' d := by
  simp [Arguments.getD, get_cons_of_ne k k' v l hne]

/-- The freshly prepended key itself is visible to a `dict.get` lookup. -/
theorem get_cons_self (k : String) (v : Value) (l : List (String × Value)) :
    Arguments.get ⟨(k, v) :: l⟩ k = some v := by
  simp [Arguments.get, List.find?]

/-- The `except` boundary of `call_tool` turns a one-text-block `.ok`
or any `.error` into exactly one text block. -/
theorem call_toolWith_one_block (h : Handlers) (name : String) (args : Arguments)
    (hr : (∃ t, call_toolE h name args = .ok [⟨"text", t⟩])
        ∨ (∃ e, call_toolE h name args = .error e)) :
    ∃ t, call_toolWith h name args = [⟨"text", t⟩] := by
  rcases hr with ⟨t, ht⟩ | ⟨e, he⟩
  · exact ⟨t, by unfold call_toolWith; rw [ht]⟩
  · exact ⟨"Error: " ++ e, by unfold call_toolWith; rw [he]⟩

/-- Handler `get_typo3_api_reference` always returns one `.ok` text block. -/
theorem api_reference_one_block (c m : Option Value) :
    ∃ t, get_typo3_api_reference c m = .ok [⟨"text", t⟩] := by
  unfold get_typo3_api_reference
  rcases c with _ | v
  · exact ⟨_, rfl⟩
  · rcases v with s | n
    · rcases h : api_docs.lookup s with _ | doc <;> simp [h]
    · exact ⟨_, rfl⟩

/-- Handler `get_typo3_coding_guidelines` returns one `.ok` text block or
raises. -/
theorem guidelines_block_or_raise (topic : Value) :
    (∃ t, get_typo3_coding_guidelines topic = .ok [⟨"text", t⟩])
    ∨ (∃ e, get_typo3_coding_guidelines topic = .error e) := by
  rcases topic with s | n
  · exact .inl ⟨_, rfl⟩
  · exact .inr ⟨_, rfl⟩

/-- Every dispatch, whatever the tool name and arguments, produces
exactly one text block. -/
theorem call_tool_one_block (name : String) (args : Arguments) :
    ∃ t, call_tool name args = [⟨"text", t⟩] := by
  unfold call_tool
  apply call_toolWith_one_block
  by_cases h1 : name = "search_typo3_docs"
  · subst h1; exact .inl ⟨_, rfl⟩
  by_cases h2 : name = "get_typo3_changelog"
  · subst h2; exact .inl ⟨_, rfl⟩
  by_cases h3 : name = "search_typo3_extensions"
  · subst h3; exact .inl ⟨_, rfl⟩
  by_cases h4 : name = "get_typo3_api_reference"
  · subst h4
    exact .inl (api_reference_one_block (args.get "class_name") (args.get "method_name"))
  by_cases h5 : name = "get_typo3_coding_guidelines"
  · subst h5; exact guidelines_block_or_raise _
  · refine .inl ⟨"Unknown tool: " ++ name, ?_⟩
    unfold call_toolE
    rw [if_neg h1, if_neg h2, if_neg h3, if_neg h4, if_neg h5]

/-!  Claim theorems. -/

/-- C1 (counterexample): the claim asserts that a call omitting a
required parameter makes `dispatch` return a `Failure` naming the missing
parameter; but calling `search_typo3_docs` with empty arguments (omitting
the required `query`) makes the `try` body of `call_tool` return the
ordinary `.ok` documentation text, with `str(None) = "None"` interpolated
where the query should be — the dispatch never enters the `Failure`
(`.error`) arm. -/
theorem c1_missing_required_counterexample :
    call_toolE serverHandlers "search_typo3_docs" ⟨[]⟩
      = .ok [⟨"text", search_docs_results "None" "main" "all"⟩]
    ∧ (call_toolE serverHandlers "search_typo3_docs" ⟨[]⟩).isOk = true :=
  ⟨rfl, rfl⟩

/-- C1 (amended): `call_tool` performs no required-parameter validation:
when a required parameter is absent from the arguments, the handler is
simply invoked with Python `None` (`none`) in that position — for each of
the four tools with a required parameter — and dispatch does not return a
`Failure`. -/
theorem c1_missing_required_passes_none (h : Handlers) (args : Arguments) :
    (args.get "query" = none →
      call_toolE h "search_typo3_docs" args
        = h.search_typo3_docs none (args.getD "version" (.str "main"))
            (args.getD "section" (.str "all")))
    ∧ (args.get "version" = none →
      call_toolE h "get_typo3_changelog" args
        = h.get_typo3_changelog none (args.getD "type" (.str "All"))
            (args.getD "limit" (.int 10)))
    ∧ (args.get "query" = none →
      call_toolE h "search_typo3_extensions" args
        = h.search_typo3_extensions none (args.getD "typo3_version" (.str "12.4"))
            (args.getD "limit" (.int 10)))
    ∧ (args.get "class_name" = none →
      call_toolE h "get_typo3_api_reference" args
        = h.get_typo3_api_reference none (args.get "method_name")) := by
  refine ⟨fun hq => ?_, fun hv => ?_, fun hq => ?_, fun hc => ?_⟩
  · have e : call_toolE h "search_typo3_docs" args
        = h.search_typo3_docs (args.get "query") (args.getD "version" (.str "main"))
            (args.getD "section" (.str "all")) := rfl
    rw [e, hq]
  · have e : call_toolE h "get_typo3_changelog" args
        = h.get_typo3_changelog (args.get "version") (args.getD "type" (.str "All"))
            (args.getD "limit" (.int 10)) := rfl
    rw [e, hv]
  · have e : call_toolE h "search_typo3_extensions" args
        = h.search_typo3_extensions (args.get "query") (args.getD "typo3_version" (.str "12.4"))
            (args.getD "limit" (.int 10)) := rfl
    rw [e, hq]
  · have e : call_toolE h "get_typo3_api_reference" args
        = h.get_typo3_api_reference (args.get "class_name") (args.get "method_name") := rfl
    rw [e, hc]

/-- C1 (witness): calling `get_typo3_changelog` without its required
`version` hands the handler `none` for `version`, with the remaining
arguments projected as usual. -/
theorem c1_missing_required_witness :
    call_toolE serverHandlers "get_typo3_changelog" ⟨[("type", Value.str "Breaking")]⟩
      = serverHandlers.get_typo3_changelog none (.str "Breaking") (.int 10) :=
  (c1_missing_required_passes_none serverHandlers
    ⟨[("type", Value.str "Breaking")]⟩).2.1 rfl

/-- C2 (counterexample): the claim asserts that an integer argument
outside its declared bounds makes `dispatch` return a `Failure` citing
the bound; but `search_typo3_extensions` with `limit = 100` (declared
bounds `[1, 50]`) and `get_typo3_changelog` with `limit = 51` or
`limit = 0` each return the ordinary `.ok` text with the out-of-bounds
value interpolated — no `Failure`, no clamping. -/
theorem c2_out_of_bounds_counterexample :
    call_toolE serverHandlers "search_typo3_extensions"
        ⟨[("query", Value.str "news"), ("limit", Value.int 100)]⟩
      = .ok [⟨"text", extensions_results "news" "12.4" "100"⟩]
    ∧ (call_toolE serverHandlers "search_typo3_extensions"
        ⟨[("query", Value.str "news"), ("limit", Value.int 100)]⟩).isOk = true
    ∧ call_toolE serverHandlers "get_typo3_changelog"
        ⟨[("version", Value.str "12.4"), ("limit", Value.int 51)]⟩
      = .ok [⟨"text", changelog_info "12.4" "All" "51"⟩]
    ∧ call_toolE serverHandlers "get_typo3_changelog"
        ⟨[("version", Value.str "12.4"), ("limit", Value.int 0)]⟩
      = .ok [⟨"text", changelog_info "12.4" "All" "0"⟩] :=
  ⟨rfl, rfl, rfl, rfl⟩

/-- C2 (amended): `call_tool` performs no bounds checking: a declared
integer parameter is handed to the handler exactly as supplied, whatever
its value, for both tools that declare `limit` bounds `[1, 50]`. -/
theorem c2_out_of_bounds_passed_through (h : Handlers) (args : Arguments) (n : Int) :
    (args.get "limit" = some (.int n) →
      call_toolE h "search_typo3_extensions" args
        = h.search_typo3_extensions (args.get "query")
            (args.getD "typo3_version" (.str "12.4")) (.int n))
    ∧ (args.get "limit" = some (.int n) →
      call_toolE h "get_typo3_changelog" args
        = h.get_typo3_changelog (args.get "version")
            (args.getD "type" (.str "All")) (.int n)) := by
  constructor <;> intro hl
  · have e : call_toolE h "search_typo3_extensions" args
        = h.search_typo3_extensions (args.get "query")
            (args.getD "typo3_version" (.str "12.4")) (args.getD "limit" (.int 10)) := rfl
    rw [e]
    simp only [Arguments.getD, hl, Option.getD_some]
  · have e : call_toolE h "get_typo3_changelog" args
        = h.get_typo3_changelog (args.get "version")
            (args.getD "type" (.str "All")) (args.getD "limit" (.int 10)) := rfl
    rw [e]
    simp only [Arguments.getD, hl, Option.getD_some]

/-- C2 (witness): the spec's scenario input of query "news" with
limit 100 reaches the `search_typo3_extensions` handler with `limit = 100` intact. -/
theorem c2_out_of_bounds_witness :
    call_toolE serverHandlers "search_typo3_extensions"
        ⟨[("query", Value.str "news"), ("limit", Value.int 100)]⟩
      = serverHandlers.search_typo3_extensions (some (.str "news"))
          (.str "12.4") (.int 100) :=
  (c2_out_of_bounds_passed_through serverHandlers
    ⟨[("query", Value.str "news"), ("limit", Value.int 100)]⟩ 100).1 rfl

/-- C3: for every tool name other than the five registered ones, and
every argument payload, dispatch returns the `.ok` (Success) arm with a
single text block whose text is exactly `"Unknown tool: "` followed by
the requested name. -/
theorem c3_unknown_tool_success (name : String) (args : Arguments)
    (h : name ∉ list_tools.map Tool.name) :
    call_toolE serverHandlers name args
      = .ok [⟨"text", "Unknown tool: " ++ name⟩]
    ∧ call_tool name args = [⟨"text", "Unknown tool: " ++ name⟩] := by
  have e : list_tools.map Tool.name
      = ["search_typo3_docs", "get_typo3_changelog", "search_typo3_extensions",
         "get_typo3_api_reference", "get_typo3_coding_guidelines"] := rfl
  rw [e] at h
  simp only [List.mem_cons, List.not_mem_nil, or_false, not_or] at h
  obtain ⟨h1, h2, h3, h4, h5⟩ := h
  have eo : call_toolE serverHandlers name args
      = .ok [⟨"text", "Unknown tool: " ++ name⟩] := by
    unfold call_toolE
    rw [if_neg h1, if_neg h2, if_neg h3, if_neg h4, if_neg h5]
  refine ⟨eo, ?_⟩
  unfold call_tool call_toolWith
  rw [eo]

/-- C3 (witness): a concrete unregistered name. -/
theorem c3_unknown_tool_witness :
    call_toolE serverHandlers "no_such_tool" ⟨[]⟩
      = .ok [⟨"text", "Unknown tool: " ++ "no_such_tool"⟩]
    ∧ call_tool "no_such_tool" ⟨[]⟩
      = [⟨"text", "Unknown tool: " ++ "no_such_tool"⟩] :=
  c3_unknown_tool_success "no_such_tool" ⟨[]⟩ (by decide)

/-- C4: whenever the invoked handler raises (the `try` body evaluates to
`.error e`), the `except Exception` boundary of `call_tool` converts it
into the single text block `"Error: " ++ e` — so the message starts with
`"Error:"` followed by the cause, and no handler failure propagates out
of dispatch (the boundary is total).  Dispatch keeps no state between
calls, so any subsequent call (`name2`, `args2`) still produces its
normal single well-formed response. -/
theorem c4_handler_fault_caught (h : Handlers) (name : String) (args : Arguments)
    (e : String) (hf : call_toolE h name args = .error e)
    (name2 : String) (args2 : Arguments) :
    call_toolWith h name args = [⟨"text", "Error: " ++ e⟩]
    ∧ (call_tool name2 args2).length = 1 := by
  constructor
  · unfold call_toolWith
    rw [hf]
  · obtain ⟨t, ht⟩ := call_tool_one_block name2 args2
    rw [ht]
    rfl

/-- C4 (witness): the spec's fault-injecting stub handler: dispatching
`search_typo3_docs` through `faultyHandlers` yields the `"Error: ..."`
block, and the next call (a normal `get_typo3_changelog` call) still
succeeds. -/
theorem c4_handler_fault_witness :
    call_toolWith faultyHandlers "search_typo3_docs" ⟨[]⟩
      = [⟨"text", "Error: " ++ "injected fault"⟩]
    ∧ (call_tool "get_typo3_changelog" ⟨[("version", Value.str "12.4")]⟩).length = 1 :=
  c4_handler_fault_caught faultyHandlers "search_typo3_docs" ⟨[]⟩
    "injected fault" rfl "get_typo3_changelog" ⟨[("version", Value.str "12.4")]⟩

/-- C5: each declared optional parameter absent from the arguments is
filled from its declared default before the handler is invoked,
independently of whether the tool's other parameters are supplied — for
every handler bundle and argument payload, per parameter: `version` and
`section` for `search_typo3_docs`, `type` and `limit` for
`get_typo3_changelog`, `typo3_version` and `limit` for
`search_typo3_extensions`, `topic` for `get_typo3_coding_guidelines`
(the parameters that are present, or the remaining absent ones, are
projected as usual).  In particular calling `get_typo3_changelog` with
only version "12.4" succeeds with exactly the text
`changelog_info "12.4" "All" "10"`, which contains
`"TYPO3 12.4 Changelog"` and reflects the defaults `type = "All"` and
`limit = 10`. -/
theorem c5_optional_defaults (h : Handlers) (args : Arguments) :
    (args.get "version" = none →
      call_toolE h "search_typo3_docs" args
        = h.search_typo3_docs (args.get "query") (.str "main")
            (args.getD "section" (.str "all")))
    ∧ (args.get "section" = none →
      call_toolE h "search_typo3_docs" args
        = h.search_typo3_docs (args.get "query")
            (args.getD "version" (.str "main")) (.str "all"))
    ∧ (args.get "type" = none →
      call_toolE h "get_typo3_changelog" args
        = h.get_typo3_changelog (args.get "version") (.str "All")
            (args.getD "limit" (.int 10)))
    ∧ (args.get "limit" = none →
      call_toolE h "get_typo3_changelog" args
        = h.get_typo3_changelog (args.get "version")
            (args.getD "type" (.str "All")) (.int 10))
    ∧ (args.get "typo3_version" = none →
      call_toolE h "search_typo3_extensions" args
        = h.search_typo3_extensions (args.get "query") (.str "12.4")
            (args.getD "limit" (.int 10)))
    ∧ (args.get "limit" = none →
      call_toolE h "search_typo3_extensions" args
        = h.search_typo3_extensions (args.get "query")
            (args.getD "typo3_version" (.str "12.4")) (.int 10))
    ∧ (args.get "topic" = none →
      call_toolE h "get_typo3_coding_guidelines" args
        = h.get_typo3_coding_guidelines (.str "php"))
    ∧ call_tool "get_typo3_changelog" ⟨[("version", Value.str "12.4")]⟩
        = [⟨"text", changelog_info "12.4" "All" "10"⟩]
    ∧ strContains (changelog_info "12.4" "All" "10") "TYPO3 12.4 Changelog"
    ∧ strContains (changelog_info "12.4" "All" "10") "**Type:** All"
    ∧ strContains (changelog_info "12.4" "All" "10") "**Limit:** 10" := by
  have e1 : call_toolE h "search_typo3_docs" args
      = h.search_typo3_docs (args.get "query") (args.getD "version" (.str "main"))
          (args.getD "section" (.str "all")) := rfl
  have e2 : call_toolE h "get_typo3_changelog" args
      = h.get_typo3_changelog (args.get "version") (args.getD "type" (.str "All"))
          (args.getD "limit" (.int 10)) := rfl
  have e3 : call_toolE h "search_typo3_extensions" args
      = h.search_typo3_extensions (args.get "query") (args.getD "typo3_version" (.str "12.4"))
          (args.getD "limit" (.int 10)) := rfl
  have e4 : call_toolE h "get_typo3_coding_guidelines" args
      = h.get_typo3_coding_guidelines (args.getD "topic" (.str "php")) := rfl
  refine ⟨fun hv => ?_, fun hs => ?_, fun ht => ?_, fun hl => ?_, fun hv => ?_,
    fun hl => ?_, fun ht => ?_,
    rfl, by unfold strContains; decide, by unfold strContains; decide,
    by unfold strContains; decide⟩
  · rw [e1]; simp only [Arguments.getD, hv, Option.getD_none]
  · rw [e1]; simp only [Arguments.getD, hs, Option.getD_none]
  · rw [e2]; simp only [Arguments.getD, ht, Option.getD_none]
  · rw [e2]; simp only [Arguments.getD, hl, Option.getD_none]
  · rw [e3]; simp only [Arguments.getD, hv, Option.getD_none]
  · rw [e3]; simp only [Arguments.getD, hl, Option.getD_none]
  · rw [e4]; simp only [Arguments.getD, ht, Option.getD_none]

/-- C5 (witness): the spec's scenario — `get_typo3_changelog` called
with only `version = "12.4"` reaches the handler with the defaults
`type = "All"` and `limit = 10` filled in; and with `version = "12.4"`
and `limit = 25` supplied but `type` still absent, only `type` is
defaulted while the supplied `limit` is passed through. -/
theorem c5_optional_defaults_witness :
    call_toolE serverHandlers "get_typo3_changelog" ⟨[("version", Value.str "12.4")]⟩
      = serverHandlers.get_typo3_changelog (some (.str "12.4")) (.str "All") (.int 10)
    ∧ call_toolE serverHandlers "get_typo3_changelog"
        ⟨[("version", Value.str "12.4"), ("limit", Value.int 25)]⟩
      = serverHandlers.get_typo3_changelog (some (.str "12.4")) (.str "All") (.int 25) :=
  ⟨(c5_optional_defaults serverHandlers
      ⟨[("version", Value.str "12.4")]⟩).2.2.1 rfl,
   (c5_optional_defaults serverHandlers
      ⟨[("version", Value.str "12.4"), ("limit", Value.int 25)]⟩).2.2.1 rfl⟩

/-- C6: `list_tools` returns exactly five entries, a fixed value of a
pure constant definition (hence identical on every call and across
runs), whose names, required parameters, property names, defaults, enum
allowed-values and integer bounds are exactly those of the table in
spec §6. -/
theorem c6_catalog_fixed :
    list_tools.length = 5
    ∧ list_tools.map Tool.name
      = ["search_typo3_docs", "get_typo3_changelog", "search_typo3_extensions",
         "get_typo3_api_reference", "get_typo3_coding_guidelines"]
    ∧ list_tools.map (fun t => t.inputSchema.required)
      = [["query"], ["version"], ["query"], ["class_name"], []]
    ∧ list_tools.map (fun t => t.inputSchema.properties.map Prod.fst)
      = [["query", "version", "section"], ["version", "type", "limit"],
         ["query", "typo3_version", "limit"], ["class_name", "method_name"],
         ["topic"]]
    ∧ list_tools.map (fun t => t.inputSchema.properties.map (fun p => p.2.default))
      = [[none, some (.str "main"), some (.str "all")],
         [none, some (.str "All"), some (.int 10)],
         [none, some (.str "12.4"), some (.int 10)],
         [none, none],
         [some (.str "php")]]
    ∧ list_tools.map (fun t => t.inputSchema.properties.map (fun p => p.2.enum))
      = [[none, none, some ["reference-coreapi", "guides", "extensions", "changelog", "all"]],
         [none, some ["Breaking", "Deprecation", "Feature", "Important", "All"], none],
         [none, none, none],
         [none, none],
         [some ["php", "javascript", "typescript", "fluid", "typoscript", "database", "security", "all"]]]
    ∧ list_tools.map (fun t => t.inputSchema.properties.map (fun p => (p.2.minimum, p.2.maximum)))
      = [[(none, none), (none, none), (none, none)],
         [(none, none), (none, none), (some 1, some 50)],
         [(none, none), (none, none), (some 1, some 50)],
         [(none, none), (none, none)],
         [(none, none)]] :=
  ⟨rfl, rfl, rfl, rfl, rfl, rfl, rfl⟩

/-- C7: a lookup key absent from a tool's static knowledge base is not an
error: for `get_typo3_api_reference`, any `class_name` other than the two
documented classes yields the `.ok` generic text `api_generic s` (which
interpolates the requested key twice); for `get_typo3_coding_guidelines`,
any string `topic` outside \x7bphp, database\x7d yields the `.ok` text
`"Guidelines for " ++ s`.  Neither path raises nor produces the
dispatcher's `Failure` arm. -/
theorem c7_unknown_lookup_key_degrades (args : Arguments) (s : String) :
    (args.get "class_name" = some (.str s) →
      s ≠ "TYPO3\\CMS\\Core\\Database\\ConnectionPool" →
      s ≠ "TYPO3\\CMS\\Core\\Http\\RequestFactory" →
      call_toolE serverHandlers "get_typo3_api_reference" args
        = .ok [⟨"text", api_generic s⟩])
    ∧ (args.getD "topic" (.str "php") = .str s →
      s ≠ "php" → s ≠ "database" →
      call_toolE serverHandlers "get_typo3_coding_guidelines" args
        = .ok [⟨"text", "Guidelines for " ++ s⟩]) := by
  constructor
  · intro hc h1 h2
    have e : call_toolE serverHandlers "get_typo3_api_reference" args
        = get_typo3_api_reference (args.get "class_name") (args.get "method_name") := rfl
    rw [e, hc]
    have hl : api_docs.lookup s = none := by
      have l1 : (s == "TYPO3\\CMS\\Core\\Database\\ConnectionPool") = false :=
        beq_eq_false_iff_ne.mpr h1
      have l2 : (s == "TYPO3\\CMS\\Core\\Http\\RequestFactory") = false :=
        beq_eq_false_iff_ne.mpr h2
      simp [api_docs, List.lookup, l1, l2]
    unfold get_typo3_api_reference
    simp [hl, pyStrO, pyStr]
  · intro ht h1 h2
    have e : call_toolE serverHandlers "get_typo3_coding_guidelines" args
        = get_typo3_coding_guidelines (args.getD "topic" (.str "php")) := rfl
    rw [e, ht]
    have hg : guidelines.lookup s = none := by
      have l1 : (s == "php") = false := beq_eq_false_iff_ne.mpr h1
      have l2 : (s == "database") = false := beq_eq_false_iff_ne.mpr h2
      simp [guidelines, List.lookup, l1, l2]
    unfold get_typo3_coding_guidelines
    simp [hg]

/-- C7 (witness): `CacheManager` is not in the `api_docs` knowledge base
and `security` is not in the `guidelines` knowledge base; both degrade to
the generic `.ok` text. -/
theorem c7_unknown_lookup_key_witness :
    call_toolE serverHandlers "get_typo3_api_reference"
        ⟨[("class_name", Value.str "TYPO3\\CMS\\Core\\Cache\\CacheManager")]⟩
      = .ok [⟨"text", api_generic "TYPO3\\CMS\\Core\\Cache\\CacheManager"⟩]
    ∧ call_toolE serverHandlers "get_typo3_coding_guidelines"
        ⟨[("topic", Value.str "security")]⟩
      = .ok [⟨"text", "Guidelines for " ++ "security"⟩] :=
  ⟨(c7_unknown_lookup_key_degrades
      ⟨[("class_name", Value.str "TYPO3\\CMS\\Core\\Cache\\CacheManager")]⟩
      "TYPO3\\CMS\\Core\\Cache\\CacheManager").1 rfl (by decide) (by decide),
   (c7_unknown_lookup_key_degrades ⟨[("topic", Value.str "security")]⟩
      "security").2 rfl (by decide) (by decide)⟩

/-- C8: keys not declared in a tool's parameter contract are never
rejected: for every registered tool, adding a binding for an undeclared
key leaves the dispatch result unchanged, and the extra binding stays
visible, unvalidated, in the arguments mapping the dispatcher consumes. -/
theorem c8_extra_keys_ignored (t : Tool) (ht : t ∈ list_tools) (k : String)
    (v : Value) (args : Arguments)
    (hk : k ∉ t.inputSchema.properties.map Prod.fst) :
    call_tool t.name ⟨(k, v) :: args.entries⟩ = call_tool t.name args
    ∧ Arguments.get ⟨(k, v) :: args.entries⟩ k = some v := by
  refine ⟨?_, get_cons_self k v args.entries⟩
  have e : list_tools
      = [searchDocsTool, changelogTool, searchExtensionsTool, apiReferenceTool,
         codingGuidelinesTool] := rfl
  rw [e] at ht
  simp only [List.mem_cons, List.not_mem_nil, or_false] at ht
  rcases ht with rfl | rfl | rfl | rfl | rfl
  · have hk' : k ∉ ["query", "version", "section"] := hk
    simp only [List.mem_cons, List.not_mem_nil, or_false, not_or] at hk'
    obtain ⟨hq, hv, hs⟩ := hk'
    have ce : call_toolE serverHandlers "search_typo3_docs" ⟨(k, v) :: args.entries⟩
        = call_toolE serverHandlers "search_typo3_docs" args := by
      have r : ∀ a : Arguments, call_toolE serverHandlers "search_typo3_docs" a
          = search_typo3_docs (a.get "query") (a.getD "version" (.str "main"))
              (a.getD "section" (.str "all")) := fun _ => rfl
      rw [r, r, get_cons_of_ne _ _ _ _ hq, getD_cons_of_ne _ _ _ _ _ hv,
        getD_cons_of_ne _ _ _ _ _ hs]
    show call_tool "search_typo3_docs" _ = call_tool "search_typo3_docs" _
    unfold call_tool call_toolWith
    rw [ce]
  · have hk' : k ∉ ["version", "type", "limit"] := hk
    simp only [List.mem_cons, List.not_mem_nil, or_false, not_or] at hk'
    obtain ⟨hv, hty, hl⟩ := hk'
    have ce : call_toolE serverHandlers "get_typo3_changelog" ⟨(k, v) :: args.entries⟩
        = call_toolE serverHandlers "get_typo3_changelog" args := by
      have r : ∀ a : Arguments, call_toolE serverHandlers "get_typo3_changelog" a
          = get_typo3_changelog (a.get "version") (a.getD "type" (.str "All"))
              (a.getD "limit" (.int 10)) := fun _ => rfl
      rw [r, r, get_cons_of_ne _ _ _ _ hv, getD_cons_of_ne _ _ _ _ _ hty,
        getD_cons_of_ne _ _ _ _ _ hl]
    show call_tool "get_typo3_changelog" _ = call_tool "get_typo3_changelog" _
    unfold call_tool call_toolWith
    rw [ce]
  · have hk' : k ∉ ["query", "typo3_version", "limit"] := hk
    simp only [List.mem_cons, List.not_mem_nil, or_false, not_or] at hk'
    obtain ⟨hq, hv, hl⟩ := hk'
    have ce : call_toolE serverHandlers "search_typo3_extensions" ⟨(k, v) :: args.entries⟩
        = call_toolE serverHandlers "search_typo3_extensions" args := by
      have r : ∀ a : Arguments, call_toolE serverHandlers "search_typo3_extensions" a
          = search_typo3_extensions (a.get "query") (a.getD "typo3_version" (.str "12.4"))
              (a.getD "limit" (.int 10)) := fun _ => rfl
      rw [r, r, get_cons_of_ne _ _ _ _ hq, getD_cons_of_ne _ _ _ _ _ hv,
        getD_cons_of_ne _ _ _ _ _ hl]
    show call_tool "search_typo3_extensions" _ = call_tool "search_typo3_extensions" _
    unfold call_tool call_toolWith
    rw [ce]
  · have hk' : k ∉ ["class_name", "method_name"] := hk
    simp only [List.mem_cons, List.not_mem_nil, or_false, not_or] at hk'
    obtain ⟨hc, hm⟩ := hk'
    have ce : call_toolE serverHandlers "get_typo3_api_reference" ⟨(k, v) :: args.entries⟩
        = call_toolE serverHandlers "get_typo3_api_reference" args := by
      have r : ∀ a : Arguments, call_toolE serverHandlers "get_typo3_api_reference" a
          = get_typo3_api_reference (a.get "class_name") (a.get "method_name") :=
        fun _ => rfl
      rw [r, r, get_cons_of_ne _ _ _ _ hc, get_cons_of_ne _ _ _ _ hm]
    show call_tool "get_typo3_api_reference" _ = call_tool "get_typo3_api_reference" _
    unfold call_tool call_toolWith
    rw [ce]
  · have hk' : k ∉ ["topic"] := hk
    simp only [List.mem_cons, List.not_mem_nil, or_false, not_or] at hk'
    have ce : call_toolE serverHandlers "get_typo3_coding_guidelines" ⟨(k, v) :: args.entries⟩
        = call_toolE serverHandlers "get_typo3_coding_guidelines" args := by
      have r : ∀ a : Arguments, call_toolE serverHandlers "get_typo3_coding_guidelines" a
          = get_typo3_coding_guidelines (a.getD "topic" (.str "php")) := fun _ => rfl
      rw [r, r, getD_cons_of_ne _ _ _ _ _ hk']
    show call_tool "get_typo3_coding_guidelines" _ = call_tool "get_typo3_coding_guidelines" _
    unfold call_tool call_toolWith
    rw [ce]

/-- C8 (witness): adding the undeclared key `bogus` to a
`search_typo3_docs` call changes nothing, and the extra binding is still
present in the mapping. -/
theorem c8_extra_keys_witness :
    call_tool "search_typo3_docs"
        ⟨[("bogus", Value.int 1), ("query", Value.str "QueryBuilder")]⟩
      = call_tool "search_typo3_docs" ⟨[("query", Value.str "QueryBuilder")]⟩
    ∧ Arguments.get ⟨[("bogus", Value.int 1), ("query", Value.str "QueryBuilder")]⟩ "bogus"
      = some (Value.int 1) :=
  c8_extra_keys_ignored searchDocsTool (by unfold list_tools; exact List.mem_cons_self _ _)
    "bogus" (Value.int 1) ⟨[("query", Value.str "QueryBuilder")]⟩ (by decide)

/-- C9: the registry is immutable and name-unique: the five registered
names are pairwise distinct; the catalog is the fixed value of a pure
constant (so every `list()` call returns the identical catalog); and for
each registered name, dispatch routes every call to the same module-level
handler with the same argument projections. -/
theorem c9_registry_immutable :
    (list_tools.map Tool.name).Nodup
    ∧ list_tools.map Tool.name
      = ["search_typo3_docs", "get_typo3_changelog", "search_typo3_extensions",
         "get_typo3_api_reference", "get_typo3_coding_guidelines"]
    ∧ (∀ args : Arguments, call_toolE serverHandlers "search_typo3_docs" args
        = search_typo3_docs (args.get "query") (args.getD "version" (.str "main"))
            (args.getD "section" (.str "all")))
    ∧ (∀ args : Arguments, call_toolE serverHandlers "get_typo3_changelog" args
        = get_typo3_changelog (args.get "version") (args.getD "type" (.str "All"))
            (args.getD "limit" (.int 10)))
    ∧ (∀ args : Arguments, call_toolE serverHandlers "search_typo3_extensions" args
        = search_typo3_extensions (args.get "query") (args.getD "typo3_version" (.str "12.4"))
            (args.getD "limit" (.int 10)))
    ∧ (∀ args : Arguments, call_toolE serverHandlers "get_typo3_api_reference" args
        = get_typo3_api_reference (args.get "class_name") (args.get "method_name"))
    ∧ (∀ args : Arguments, call_toolE serverHandlers "get_typo3_coding_guidelines" args
        = get_typo3_coding_guidelines (args.getD "topic" (.str "php"))) :=
  ⟨by decide, rfl, fun _ => rfl, fun _ => rfl, fun _ => rfl, fun _ => rfl,
   fun _ => rfl⟩

/-- C10: every call — registered or not, whatever the arguments — returns
exactly one text content block, on every path including the unknown-tool
path and the caught-exception path. -/
theorem c10_single_text_block (name : String) (args : Arguments) :
    ∃ t : String, call_tool name args = [⟨"text", t⟩] :=
  call_tool_one_block name args

end Typo3Docs
